import Mathlib

/-!
Verification of the NeuroVision rehabilitation-training core: the dual-mode
frame source (synthetic physiological simulator and landmark-detector
adapter), the exponential smoothing filter, the blink rising-edge counter,
and the per-exercise session scoring engine.  Definitions are shallow
embeddings of the TypeScript sources `src/services/aiEngine.ts` and
`src/components/RehabExercise.tsx`; JavaScript floating-point numbers are
modelled by real numbers (rationals where every quantity is rational),
`Math.round` by the floor of `x + 1/2`, and `Math.random()` draws by
explicit parameters ranging over `[0, 1)`.
-/

namespace NeuroVision

/-- JavaScript `Math.round` on a rational: floor of `x + 1/2`. -/
def jsRoundQ (x : ℚ) : ℤ := ⌊x + 1/2⌋

/-- JavaScript `Math.round` on a real: floor of `x + 1/2`. -/
noncomputable def jsRound (x : ℝ) : ℤ := ⌊x + 1/2⌋

/-- JavaScript truncation toward zero, as used by the `%` operator. -/
noncomputable def jsTrunc (x : ℝ) : ℤ := if 0 ≤ x then ⌊x⌋ else -⌊-x⌋

/-- JavaScript `a % b` on floats (sign follows the dividend). -/
noncomputable def jsMod (a b : ℝ) : ℝ := a - b * jsTrunc (a / b)

/-- JavaScript `x || 1` for a numeric `x` that is a genuine rational:
the fallback fires exactly when `x = 0`. -/
def jsOrOneQ (x : ℚ) : ℚ := if x = 0 then 1 else x

/-- JavaScript `x || 0` on an integer: the identity, written out to mirror
the source text `... || 0`. -/
def jsOrZero (x : ℤ) : ℤ := if x = 0 then 0 else x

/-! ## Blink edge detector (`aiEngine.ts`, main loop lines 396–399)

The loop keeps one boolean `lastBlinkState`; on each delivered frame it
increments the counter when `data.blinkDetected && !lastBlinkState.current`
and then stores `data.blinkDetected` unconditionally. -/

/-- One tick of the blink edge detector: state is (counter, lastBlinkState),
input is the frame's `blinkDetected` flag. -/
def blinkStep (st : ℕ × Bool) (b : Bool) : ℕ × Bool :=
  ((if b && !st.2 then st.1 + 1 else st.1), b)

/-- Running the blink edge detector over a whole sequence of delivered
frames, starting from counter 0 and last-blink state `false`. -/
def blinkRun (frames : List Bool) : ℕ × Bool :=
  frames.foldl blinkStep (0, false)

/-- The number of maximal contiguous runs of `true` in a boolean sequence:
each leading `true` opens a run whose remainder is discarded with
`dropWhile`. -/
def countTrueRuns : List Bool → ℕ
  | [] => 0
  | false :: rest => countTrueRuns rest
  | true :: rest => 1 + countTrueRuns (rest.dropWhile (fun b => b))
termination_by l => l.length
decreasing_by
  · simp only [List.length_cons]; omega
  · simp only [List.length_cons]
    exact Nat.lt_succ_of_le (List.dropWhile_sublist (fun b => b)).length_le

/-! ## Session scoring and clinical analysis (`RehabExercise.tsx`) -/

/-- The categorical status of a `SessionAnalysis`. -/
inductive ClinicalStatus where
  | GOOD
  | WARNING
  | CRITICAL
deriving DecidableEq

/-- The selected physiological demo profile. -/
inductive DemoProfile where
  | HEALTHY
  | LOW
  | HIGH
deriving DecidableEq

/-- The exercise kind of a rehabilitation session. -/
inductive ExerciseType where
  | FOLLOW_DOT
  | BLINK_TRAINING
  | HEAD_STABILITY
deriving DecidableEq

/-- Measured-path clinical analysis of a BlinkTraining session
(`getDetailedAnalysis`, lines 188–195): the divisor is
`(durationSeconds - timeLeft) / 60 || 1` and the value is
`Math.round(sessionBlinks / durationMins)`; the status is WARNING when the
value falls outside `[10, 30]`. -/
def blinkTrainingAnalysis (durationSeconds timeLeft sessionBlinks : ℕ) :
    ℤ × ClinicalStatus :=
  let durationMins : ℚ := jsOrOneQ (((durationSeconds : ℚ) - (timeLeft : ℚ)) / 60)
  let bpm : ℤ := jsRoundQ ((sessionBlinks : ℚ) / durationMins)
  (bpm, if bpm < 10 ∨ bpm > 30 then ClinicalStatus.WARNING else ClinicalStatus.GOOD)

/-- Modelled from the spec sentence of claim C1: blinks-per-minute with the
elapsed time floored at one minute, `round(blinkCount / max 1 (elapsed/60))`.
Compared against `blinkTrainingAnalysis`, which embeds the source. -/
def specBlinkBPM (durationSeconds timeLeft sessionBlinks : ℕ) : ℤ :=
  jsRoundQ ((sessionBlinks : ℚ) /
    max 1 (((durationSeconds : ℚ) - (timeLeft : ℚ)) / 60))

/-- Measured-path clinical analysis of a FollowDot session
(`getDetailedAnalysis`, lines 200–204): efficiency is
`min(100, round(score / (elapsed*10) * 100)) || 0`, CRITICAL below 50. -/
def followDotAnalysis (durationSeconds timeLeft score : ℕ) :
    ℤ × ClinicalStatus :=
  let efficiency : ℤ := jsOrZero (min 100 (jsRoundQ
    ((score : ℚ) / ((((durationSeconds : ℚ) - (timeLeft : ℚ))) * 10) * 100)))
  (efficiency,
    if efficiency < 50 then ClinicalStatus.CRITICAL else ClinicalStatus.GOOD)

/-- The React component state of `RehabExercise` that the session state
machine mutates, together with the props it keeps fixed. -/
structure SessionState where
  exerciseType : ExerciseType
  demoState : DemoProfile
  durationSeconds : ℕ
  isPlaying : Bool
  isFinished : Bool
  timeLeft : ℕ
  score : ℕ
  blinkCount : ℕ
  sessionBlinks : ℕ
  headStabilityScore : ℝ
  targetX : ℝ
  targetY : ℝ
  targetVisible : Bool

/-- The session phase, as the spec's `Idle / Playing / Finished` reading of
the two booleans `isPlaying` and `isFinished`. -/
inductive Phase where
  | Idle
  | Playing
  | Finished
deriving DecidableEq

def phase (s : SessionState) : Phase :=
  if s.isFinished then Phase.Finished
  else if s.isPlaying then Phase.Playing else Phase.Idle

/-- `restartSession` (lines 74–83): clears the finished/playing flags,
re-arms the countdown and zeroes every counter, resetting the head
stability score to 100 and the dot target to the centre. -/
def restartSession (s : SessionState) : SessionState :=
  { s with
    isFinished := false
    isPlaying := false
    timeLeft := s.durationSeconds
    score := 0
    blinkCount := 0
    sessionBlinks := 0
    headStabilityScore := 100
    targetX := 50
    targetY := 50
    targetVisible := true }

/-- `togglePlay` (lines 129–145): on a finished session it restarts;
otherwise it flips the playing flag. -/
def togglePlay (s : SessionState) : SessionState :=
  if s.isFinished then restartSession s
  else { s with isPlaying := !s.isPlaying }

/-- A concrete finished FollowDot session used to witness the restart
theorem. -/
def finishedSample : SessionState :=
  { exerciseType := ExerciseType.FOLLOW_DOT
    demoState := DemoProfile.HEALTHY
    durationSeconds := 60
    isPlaying := false
    isFinished := true
    timeLeft := 0
    score := 12
    blinkCount := 7
    sessionBlinks := 7
    headStabilityScore := 40
    targetX := 30
    targetY := 60
    targetVisible := true }

/-! ## The frame data model (`types.ts`) -/

/-- A 2-D point in normalized image space. -/
structure Point where
  x : ℝ
  y : ℝ

/-- Five named eye landmark points. -/
structure EyeLandmarks where
  pupil : Point
  upperLid : Point
  lowerLid : Point
  innerCorner : Point
  outerCorner : Point

/-- One frame of facial-pose measurements (`FaceData` in `types.ts`).  The
optional TypeScript fields `leftEye? / rightEye?` become `Option`s. -/
structure FaceData where
  yaw : ℝ
  pitch : ℝ
  roll : ℝ
  eyeOpennessLeft : ℝ
  eyeOpennessRight : ℝ
  mouthSymmetry : ℝ
  gazeX : ℝ
  gazeY : ℝ
  blinkDetected : Bool
  confidence : ℝ
  leftEye : Option EyeLandmarks
  rightEye : Option EyeLandmarks

/-- The initial frame held before any processing (`DEFAULT_FACE_DATA`). -/
noncomputable def DEFAULT_FACE_DATA : FaceData :=
  { yaw := 0
    pitch := 0
    roll := 0
    eyeOpennessLeft := 0.9
    eyeOpennessRight := 0.9
    mouthSymmetry := 0.95
    gazeX := 0
    gazeY := 0
    blinkDetected := false
    confidence := 0
    leftEye := none
    rightEye := none }

/-! ## Smoothing filter (`aiEngine.ts` lines 32–56) -/

def POSE_SMOOTHING : ℝ := 0.5

def LANDMARK_SMOOTHING : ℝ := 0.6

/-- Exponential interpolation between the previous and the new raw value. -/
def lerp (start stop factor : ℝ) : ℝ := start + (stop - start) * factor

def lerpPoint (start stop : Point) (factor : ℝ) : Point :=
  { x := lerp start.x stop.x factor
    y := lerp start.y stop.y factor }

/-- Landmark smoothing: when no previous landmark set exists, the current
raw set passes through unchanged. -/
def smoothEye (prev : Option EyeLandmarks) (curr : EyeLandmarks) (factor : ℝ) :
    EyeLandmarks :=
  match prev with
  | none => curr
  | some p =>
    { pupil := lerpPoint p.pupil curr.pupil factor
      upperLid := lerpPoint p.upperLid curr.upperLid factor
      lowerLid := lerpPoint p.lowerLid curr.lowerLid factor
      innerCorner := lerpPoint p.innerCorner curr.innerCorner factor
      outerCorner := lerpPoint p.outerCorner curr.outerCorner factor }

/-- Iterating the pose smoothing step against a constant raw input:
`smoothIter raw prev n` is the smoothed value after `n` ticks. -/
def smoothIter (raw prev : ℝ) : ℕ → ℝ
  | 0 => prev
  | n + 1 => lerp (smoothIter raw prev n) raw POSE_SMOOTHING

/-! ## Synthetic generator (`simulateData`, `aiEngine.ts` lines 112–232) -/

/-- Profile-scaled multipliers selected at the top of `simulateData`. -/
structure ProfileConfig where
  headStabilityMult : ℝ
  blinkRateMult : ℝ
  gazeJitter : ℝ
  asymmetry : ℝ

def profileConfig : DemoProfile → ProfileConfig
  | DemoProfile.HEALTHY => ⟨1.0, 1.0, 0.0, 0.0⟩
  | DemoProfile.LOW => ⟨4.0, 0.15, 0.15, 0.2⟩
  | DemoProfile.HIGH => ⟨0.2, 6.0, 0.02, 0.0⟩

/-- The three `Math.random()` draws a single simulated frame can consume:
two gaze-jitter draws and one random-blink draw, each ranging in `[0,1)`. -/
structure SimRand where
  jitterX : ℝ
  jitterY : ℝ
  blink : ℝ

/-- Head yaw of a simulated frame: slow sinusoid plus micro-tremor, scaled
by the profile's head-stability multiplier. -/
noncomputable def simYaw (mult time : ℝ) : ℝ :=
  Real.sin (time / 4000) * 8 * mult + Real.sin (time / 900) * 1.5 * mult

/-- Head pitch of a simulated frame. -/
noncomputable def simPitch (mult time : ℝ) : ℝ :=
  (Real.cos (time / 5000) * 4 + 2) * mult + Real.sin (time / 1200) * 1.0 * mult

/-- Head roll of a simulated frame. -/
noncomputable def simRoll (mult time : ℝ) : ℝ :=
  (Real.sin (time / 6000) * 2 + Real.cos (time / 1500) * 0.5) * mult

/-- The saccade interval: 800ms for the HIGH profile, 1800ms otherwise. -/
noncomputable def saccadeIntervalOf (demoProfile : DemoProfile) : ℝ :=
  if demoProfile = DemoProfile.HIGH then 800 else 1800

/-- The saccade-interval index seeding the pseudo-random gaze targets. -/
noncomputable def simSeed (demoProfile : DemoProfile) (time : ℝ) : ℤ :=
  ⌊time / saccadeIntervalOf demoProfile⌋

/-- Pseudo-random saccade target abscissa for a given interval index. -/
noncomputable def simTargetX (seed : ℤ) : ℝ := Real.sin ((seed : ℝ) * 123.45) * 0.5

/-- Pseudo-random saccade target ordinate for a given interval index. -/
noncomputable def simTargetY (seed : ℤ) : ℝ := Real.cos ((seed : ℝ) * 678.90) * 0.3

/-- Eased progress within the current saccade interval, saturating at 1
after the first 250ms. -/
noncomputable def simProgress (demoProfile : DemoProfile) (time : ℝ) : ℝ :=
  min 1 (jsMod time (saccadeIntervalOf demoProfile) / 250)

/-- Cubic ease-out applied to the saccade progress. -/
noncomputable def simEase (demoProfile : DemoProfile) (time : ℝ) : ℝ :=
  1 - (1 - simProgress demoProfile time) ^ 3

/-- The scan (pre-VOR gaze) abscissa: eased interpolation from the previous
saccade target to the current one, plus the profile-scaled uniform jitter
when the profile has any. -/
noncomputable def simScanX (demoProfile : DemoProfile) (time jitterDraw : ℝ) : ℝ :=
  let scan := simTargetX (simSeed demoProfile time - 1) +
    (simTargetX (simSeed demoProfile time) - simTargetX (simSeed demoProfile time - 1)) *
      simEase demoProfile time
  if (profileConfig demoProfile).gazeJitter > 0 then
    scan + (jitterDraw - 0.5) * (profileConfig demoProfile).gazeJitter
  else scan

/-- The scan (pre-VOR gaze) ordinate. -/
noncomputable def simScanY (demoProfile : DemoProfile) (time jitterDraw : ℝ) : ℝ :=
  let scan := simTargetY (simSeed demoProfile time - 1) +
    (simTargetY (simSeed demoProfile time) - simTargetY (simSeed demoProfile time - 1)) *
      simEase demoProfile time
  if (profileConfig demoProfile).gazeJitter > 0 then
    scan + (jitterDraw - 0.5) * (profileConfig demoProfile).gazeJitter
  else scan

/-- Gaze abscissa: scan plus the vestibulo-ocular compensation `-(yaw/35)`. -/
noncomputable def simGazeX (demoProfile : DemoProfile) (time jitterDraw : ℝ) : ℝ :=
  simScanX demoProfile time jitterDraw +
    -(simYaw (profileConfig demoProfile).headStabilityMult time / 35)

/-- Gaze ordinate: scan plus the vestibulo-ocular compensation `-(pitch/35)`. -/
noncomputable def simGazeY (demoProfile : DemoProfile) (time jitterDraw : ℝ) : ℝ :=
  simScanY demoProfile time jitterDraw +
    -(simPitch (profileConfig demoProfile).headStabilityMult time / 35)

/-- Per-tick blink probability: higher during the moving half of a saccade
interval, scaled by the profile's blink-rate multiplier. -/
noncomputable def simBlinkProb (demoProfile : DemoProfile) (time : ℝ) : ℝ :=
  (if simProgress demoProfile time < 0.5 then 0.005 else 0.001) *
    (profileConfig demoProfile).blinkRateMult

/-- The blink flag: a forced periodic blink in the last 4% of the blink
cycle, or a random blink drawn against the per-tick probability. -/
noncomputable def simIsBlinking (demoProfile : DemoProfile) (time blinkDraw : ℝ) :
    Bool :=
  let blinkCycleLen := 3500 / (profileConfig demoProfile).blinkRateMult
  let blinkCycle := jsMod time blinkCycleLen / blinkCycleLen
  if blinkCycle > 0.96 ∨ blinkDraw < simBlinkProb demoProfile time then true else false

/-- Eyelid openness: 0.02 while blinking, otherwise 0.94 lowered by
gaze-down and pitch effects plus tremor noise, floored at 0.1. -/
noncomputable def simOpenness (demoProfile : DemoProfile) (time : ℝ) (rnd : SimRand) :
    ℝ :=
  if simIsBlinking demoProfile time rnd.blink then (0.02 : ℝ)
  else
    max 0.1 (0.94 - max 0 (simGazeY demoProfile time rnd.jitterY * 0.2) -
      max 0 (simPitch (profileConfig demoProfile).headStabilityMult time * 0.01) +
      Real.sin (time / 50) * 0.005)

/-- The synthetic frame generator, a function of the elapsed time in
milliseconds, the demo profile, and the tick's random draws; assembled from
the component functions above exactly as `simulateData` computes them. -/
noncomputable def simulateData (demoProfile : DemoProfile) (time : ℝ)
    (rnd : SimRand) : FaceData :=
  let cfg := profileConfig demoProfile
  let yaw := simYaw cfg.headStabilityMult time
  let pitch := simPitch cfg.headStabilityMult time
  let gazeX := simGazeX demoProfile time rnd.jitterX
  let gazeY := simGazeY demoProfile time rnd.jitterY
  let isBlinking := simIsBlinking demoProfile time rnd.blink
  let openness := simOpenness demoProfile time rnd
  let headXShift := yaw * 0.005
  let headYShift := pitch * 0.005
  let irisXShift := gazeX * 0.08
  let irisYShift := gazeY * 0.08
  let lidTrackY := irisYShift * 0.5
  let blinkOffset := (1 - openness) * 0.035
  let simLeftEye : EyeLandmarks :=
    { pupil := ⟨0.4 + headXShift + irisXShift, 0.45 + headYShift + irisYShift⟩
      upperLid := ⟨0.4 + headXShift, 0.42 + headYShift + lidTrackY + blinkOffset⟩
      lowerLid := ⟨0.4 + headXShift, 0.48 + headYShift + blinkOffset * 0.2⟩
      innerCorner := ⟨0.46 + headXShift, 0.45 + headYShift⟩
      outerCorner := ⟨0.34 + headXShift, 0.45 + headYShift⟩ }
  let simRightEye : EyeLandmarks :=
    { pupil := ⟨0.6 + headXShift + irisXShift, 0.45 + headYShift + irisYShift⟩
      upperLid := ⟨0.6 + headXShift,
        0.42 + headYShift + lidTrackY + blinkOffset + cfg.asymmetry * 0.02⟩
      lowerLid := ⟨0.6 + headXShift, 0.48 + headYShift + blinkOffset * 0.2⟩
      innerCorner := ⟨0.54 + headXShift, 0.45 + headYShift⟩
      outerCorner := ⟨0.66 + headXShift, 0.45 + headYShift⟩ }
  { yaw := yaw
    pitch := pitch
    roll := simRoll cfg.headStabilityMult time
    eyeOpennessLeft := openness
    eyeOpennessRight := openness * (1.0 - cfg.asymmetry)
    mouthSymmetry := 0.95 - cfg.asymmetry
    gazeX := gazeX
    gazeY := gazeY
    blinkDetected := isBlinking
    confidence := 0.98
    leftEye := some simLeftEye
    rightEye := some simRightEye }

/-! ## Detector adapter (`processFrame`, `aiEngine.ts` lines 235–322) -/

/-- The outcome of one tick of the external detector pipeline, as seen by
`processFrame`: the guard clauses (model or video not ready; duplicate
video frame; inference exception; no face found) or a detected face with
its landmark array and the two resolved eye-blink blendshape scores
(already defaulted with `|| 0` if missing). -/
inductive DetectInput where
  | notReady
  | duplicate
  | inferError
  | noFace
  | face (landmarks : ℕ → Point) (blinkLeftScore blinkRightScore : ℝ)

/-- Raw head yaw estimated from nose versus cheek midpoint. -/
noncomputable def rawYawOf (landmarks : ℕ → Point) : ℝ :=
  ((landmarks 1).x - ((landmarks 454).x + (landmarks 234).x) / 2) * 200

/-- Raw head pitch estimated from nose versus eye-midline. -/
noncomputable def rawPitchOf (landmarks : ℕ → Point) : ℝ :=
  ((landmarks 1).y - ((landmarks 159).y + (landmarks 386).y) / 2 - 0.1) * 200

def rawLeftEyeOf (landmarks : ℕ → Point) : EyeLandmarks :=
  { pupil := landmarks 468
    upperLid := landmarks 159
    lowerLid := landmarks 145
    innerCorner := landmarks 133
    outerCorner := landmarks 33 }

def rawRightEyeOf (landmarks : ℕ → Point) : EyeLandmarks :=
  { pupil := landmarks 473
    upperLid := landmarks 386
    lowerLid := landmarks 374
    innerCorner := landmarks 362
    outerCorner := landmarks 263 }

/-- The blink decision: a strong blink (average score above 0.5) or a
subtle symmetric blink. -/
noncomputable def blinkDecision (bl br : ℝ) : Bool :=
  let avgBlinkScore := (bl + br) / 2
  let eyeDiff := |bl - br|
  if avgBlinkScore > 0.5 ∨
      (avgBlinkScore > 0.2 ∧ eyeDiff < 0.2 ∧ bl > 0.1 ∧ br > 0.1) then true
  else false

/-- One tick of the detector adapter, carrying the previous emitted frame
(`prevDataRef`). -/
noncomputable def processFrame (prev : FaceData) : DetectInput → FaceData
  | DetectInput.notReady => { prev with confidence := 0 }
  | DetectInput.duplicate => prev
  | DetectInput.inferError => prev
  | DetectInput.noFace => { prev with confidence := 0.3, blinkDetected := false }
  | DetectInput.face lm bl br =>
    { yaw := lerp prev.yaw (rawYawOf lm) POSE_SMOOTHING
      pitch := lerp prev.pitch (rawPitchOf lm) POSE_SMOOTHING
      roll := 0
      eyeOpennessLeft := 1.0 - bl
      eyeOpennessRight := 1.0 - br
      mouthSymmetry := 0.95
      gazeX := lerp prev.gazeX (((lm 1).x - 0.5) * 2) POSE_SMOOTHING
      gazeY := lerp prev.gazeY (((lm 1).y - 0.5) * 2) POSE_SMOOTHING
      blinkDetected := blinkDecision bl br
      confidence := 0.99
      leftEye := some (smoothEye prev.leftEye (rawLeftEyeOf lm) LANDMARK_SMOOTHING)
      rightEye := some (smoothEye prev.rightEye (rawRightEyeOf lm) LANDMARK_SMOOTHING) }

/-- One 100ms scoring tick of the HeadStability exercise (`gameLoop`,
`RehabExercise.tsx` lines 112–123): decrement by 0.2 floored at 0 when the
head deviation exceeds 5 degrees, else increment by 0.05 capped at 100. -/
noncomputable def headStabilityStep (yaw pitch prev : ℝ) : ℝ :=
  if |yaw| + |pitch| > 5 then max 0 (prev - 0.2) else min 100 (prev + 0.05)

/-- The range invariant of claim C4 on a single frame. -/
def FrameRangesOK (d : FaceData) : Prop :=
  0 ≤ d.confidence ∧ d.confidence ≤ 1 ∧
  0 ≤ d.eyeOpennessLeft ∧ d.eyeOpennessLeft ≤ 1 ∧
  0 ≤ d.eyeOpennessRight ∧ d.eyeOpennessRight ≤ 1 ∧
  0 ≤ d.mouthSymmetry ∧ d.mouthSymmetry ≤ 1

/-- The nose landmark of a detected face lies in normalized image space;
trivially true of the guard-clause inputs. -/
def NoseOK : DetectInput → Prop
  | DetectInput.face lm _ _ =>
    0 ≤ (lm 1).x ∧ (lm 1).x ≤ 1 ∧ 0 ≤ (lm 1).y ∧ (lm 1).y ≤ 1
  | _ => True

/-- The two eye-blink blendshape scores of a detected face lie in `[0,1]`;
trivially true of the guard-clause inputs. -/
def BlendshapesOK : DetectInput → Prop
  | DetectInput.face _ bl br => 0 ≤ bl ∧ bl ≤ 1 ∧ 0 ≤ br ∧ br ≤ 1
  | _ => True

/-- A concrete landmark array whose nose sits 0.05 right of the cheek
midpoint, giving a raw yaw of 10 degrees; all other landmarks sit at the
image centre. -/
noncomputable def lm0 : ℕ → Point :=
  fun i => if i = 1 then ⟨0.55, 0.5⟩ else ⟨0.5, 0.5⟩

/-! ## Claim theorems -/

theorem countTrueRuns_nil : countTrueRuns [] = 0 := by
  simp [countTrueRuns]

theorem countTrueRuns_false (rest : List Bool) :
    countTrueRuns (false :: rest) = countTrueRuns rest := by
  simp [countTrueRuns]

theorem countTrueRuns_true (rest : List Bool) :
    countTrueRuns (true :: rest) = 1 + countTrueRuns (rest.dropWhile (fun b => b)) := by
  simp [countTrueRuns]

/-- Generalized correctness of the fold: from counter `n` and last state
`prev`, the final counter adds the number of maximal true-runs of the
input, except that when `prev = true` a true-run still in progress at the
head is not counted again. -/
theorem blinkFold_counts (l : List Bool) : ∀ (n : ℕ) (prev : Bool),
    (l.foldl blinkStep (n, prev)).1 =
      n + countTrueRuns (if prev then l.dropWhile (fun b => b) else l) := by
  induction l with
  | nil => intro n prev; cases prev <;> simp [countTrueRuns_nil]
  | cons b rest ih =>
    intro n prev
    cases prev with
    | false =>
      cases b with
      | false =>
        show (List.foldl blinkStep (n, false) rest).1 = n + countTrueRuns (false :: rest)
        rw [ih n false, countTrueRuns_false]
        simp
      | true =>
        show (List.foldl blinkStep (n + 1, true) rest).1 = n + countTrueRuns (true :: rest)
        rw [ih (n + 1) true, countTrueRuns_true]
        simp
        omega
    | true =>
      cases b with
      | false =>
        show (List.foldl blinkStep (n, false) rest).1 =
          n + countTrueRuns (List.dropWhile (fun b => b) (false :: rest))
        rw [ih n false]
        simp [List.dropWhile, countTrueRuns_false]
      | true =>
        show (List.foldl blinkStep (n, true) rest).1 =
          n + countTrueRuns (List.dropWhile (fun b => b) (true :: rest))
        rw [ih n true]
        simp [List.dropWhile]

/-- C2: starting from last-blink state `false`, the blink counter of the
main loop increments exactly once per maximal contiguous run of
`blinkDetected = true` frames, the last-blink state is updated to the
frame's flag on every tick, and the sequence `[F,F,T,T,T,F,T]` yields a
count of 2. -/
theorem blink_edge_detector_correct :
    (∀ frames : List Bool, (blinkRun frames).1 = countTrueRuns frames) ∧
    (∀ (st : ℕ × Bool) (b : Bool), (blinkStep st b).2 = b) ∧
    (blinkRun [false, false, true, true, true, false, true]).1 = 2 := by
  refine ⟨fun frames => ?_, fun st b => rfl, by decide⟩
  simpa using blinkFold_counts frames 0 false

/-- C1 counterexample: with 30 seconds elapsed (half a minute) and 10
blinks, the code divides by 0.5 minutes and reports 20 BPM, while the
claimed divisor-floored-at-one-minute formula reports 10 BPM. -/
theorem blink_bpm_not_floored_at_one_minute :
    (blinkTrainingAnalysis 60 30 10).1 = 20 ∧ specBlinkBPM 60 30 10 = 10 ∧
      (blinkTrainingAnalysis 60 30 10).1 ≠ specBlinkBPM 60 30 10 := by
  have h1 : (blinkTrainingAnalysis 60 30 10).1 = 20 := by
    norm_num [blinkTrainingAnalysis, jsOrOneQ, jsRoundQ]
  have h2 : specBlinkBPM 60 30 10 = 10 := by
    norm_num [specBlinkBPM, jsRoundQ]
  exact ⟨h1, h2, by rw [h1, h2]; norm_num⟩

/-- C1 amended: the reported BPM is `round(blinkCount / (elapsed/60))`,
where the `|| 1` fallback replaces the divisor with one minute only when
the elapsed time is exactly zero; it agrees with the spec's
floored-at-one-minute formula exactly on sessions with zero elapsed time
or at least 60 seconds elapsed. -/
theorem jsRoundQ_natCast (n : ℕ) : jsRoundQ (n : ℚ) = n := by
  unfold jsRoundQ
  rw [Int.floor_eq_iff]
  constructor <;> push_cast <;> norm_num

theorem blink_bpm_measured (d t b : ℕ) (hle : t ≤ d) :
    (blinkTrainingAnalysis d t b).1 =
      (if d - t = 0 then (b : ℤ) else jsRoundQ ((60 * (b : ℚ)) / ((d - t : ℕ) : ℚ))) ∧
    (60 ≤ d - t ∨ d - t = 0 →
      (blinkTrainingAnalysis d t b).1 = specBlinkBPM d t b) := by
  have hcast : ((d : ℚ) - (t : ℚ)) = ((d - t : ℕ) : ℚ) := by
    rw [Nat.cast_sub hle]
  by_cases h0 : d - t = 0
  · have hdt : (d : ℚ) - (t : ℚ) = 0 := by rw [hcast, h0]; norm_num
    have hval : (blinkTrainingAnalysis d t b).1 = (b : ℤ) := by
      have hj : jsOrOneQ (((d : ℚ) - (t : ℚ)) / 60) = 1 := by
        rw [hdt]; simp [jsOrOneQ]
      simp only [blinkTrainingAnalysis, hj, div_one]
      exact jsRoundQ_natCast b
    refine ⟨by simp [h0, hval], fun _ => ?_⟩
    rw [hval]
    simp only [specBlinkBPM, hdt, zero_div]
    rw [show max (1 : ℚ) 0 = 1 by norm_num, div_one]
    exact (jsRoundQ_natCast b).symm
  · have he : (0 : ℚ) < ((d - t : ℕ) : ℚ) := by
      have : 0 < d - t := Nat.pos_of_ne_zero h0
      exact_mod_cast this
    have hne : ((d : ℚ) - (t : ℚ)) / 60 ≠ 0 := by
      rw [hcast]
      positivity
    have hval : (blinkTrainingAnalysis d t b).1 =
        jsRoundQ ((60 * (b : ℚ)) / ((d - t : ℕ) : ℚ)) := by
      have hj : jsOrOneQ (((d : ℚ) - (t : ℚ)) / 60) =
          ((d : ℚ) - (t : ℚ)) / 60 := by
        simp [jsOrOneQ, hne]
      simp only [blinkTrainingAnalysis, hj]
      congr 1
      rw [hcast]
      field_simp
      ring
    refine ⟨by simp [h0, hval], fun h60 => ?_⟩
    rcases h60 with h60 | h60
    · have hmax : max (1 : ℚ) (((d : ℚ) - (t : ℚ)) / 60) =
          ((d : ℚ) - (t : ℚ)) / 60 := by
        rw [max_eq_right]
        rw [hcast]
        rw [le_div_iff₀ (by norm_num : (0:ℚ) < 60)]
        have : (60 : ℚ) ≤ ((d - t : ℕ) : ℚ) := by exact_mod_cast h60
        linarith

      rw [hval]
      simp only [specBlinkBPM, hmax]
      congr 1
      rw [hcast]
      field_simp
      ring
    · exact absurd h60 h0

/-- C1 witness: the amended BPM formula instantiated at a 60-second session
with 30 seconds elapsed and 10 blinks. -/
theorem blink_bpm_measured_witness :
    (30 : ℕ) ≤ 60 ∧ (blinkTrainingAnalysis 60 30 10).1 =
      jsRoundQ ((60 * (10 : ℚ)) / ((60 - 30 : ℕ) : ℚ)) := by
  have h := (blink_bpm_measured 60 30 10 (by norm_num)).1
  exact ⟨by norm_num, by simpa using h⟩

/-- C9: on the measured path, the FollowDot clinical value is
`min(100, round(score / (elapsedSeconds*10) * 100))` and the status is
CRITICAL exactly when that value is below 50, otherwise GOOD. -/
theorem followDot_measured (d t s : ℕ) (_h : t < d) :
    (followDotAnalysis d t s).1 =
      min 100 (jsRoundQ ((s : ℚ) / (((d : ℚ) - (t : ℚ)) * 10) * 100)) ∧
    ((followDotAnalysis d t s).2 = ClinicalStatus.CRITICAL ↔
      (followDotAnalysis d t s).1 < 50) ∧
    ((followDotAnalysis d t s).2 = ClinicalStatus.GOOD ↔
      50 ≤ (followDotAnalysis d t s).1) := by
  have hz : ∀ x : ℤ, jsOrZero x = x := by
    intro x
    unfold jsOrZero
    split <;> omega
  refine ⟨by simp [followDotAnalysis, hz], ?_, ?_⟩ <;>
    simp only [followDotAnalysis, hz] <;> split <;> simp_all

/-- C9 witness: the spec scenario — FollowDot on the measured path with
score 450 after 45 seconds elapsed reports accuracy 100 and status GOOD. -/
theorem followDot_measured_witness :
    (0 : ℕ) < 45 ∧ (followDotAnalysis 45 0 450).1 = 100 ∧
      (followDotAnalysis 45 0 450).2 = ClinicalStatus.GOOD := by
  have h := followDot_measured 45 0 450 (by norm_num)
  have hval : (followDotAnalysis 45 0 450).1 = 100 := by
    rw [h.1]
    norm_num [jsRoundQ]
  exact ⟨by norm_num, hval, (h.2.2).mpr (by rw [hval]; norm_num)⟩

/-- C8: restarting a Finished session resets the score, blink counters and
head stability score, re-arms the countdown to the configured duration and
returns the phase to Idle, while the exercise kind, profile and duration
are kept unchanged; `togglePlay` on a Finished session performs exactly
this restart. -/
theorem restart_finished_session (s : SessionState) (h : phase s = Phase.Finished) :
    phase (restartSession s) = Phase.Idle ∧
    (restartSession s).score = 0 ∧
    (restartSession s).blinkCount = 0 ∧
    (restartSession s).sessionBlinks = 0 ∧
    (restartSession s).headStabilityScore = 100 ∧
    (restartSession s).timeLeft = s.durationSeconds ∧
    (restartSession s).exerciseType = s.exerciseType ∧
    (restartSession s).demoState = s.demoState ∧
    (restartSession s).durationSeconds = s.durationSeconds ∧
    togglePlay s = restartSession s := by
  have hf : s.isFinished = true := by
    by_contra hb
    simp only [Bool.not_eq_true] at hb
    simp only [phase, hb, Bool.false_eq_true, if_false] at h
    split at h <;> exact absurd h (by intro hh; cases hh)
  refine ⟨rfl, rfl, rfl, rfl, rfl, rfl, rfl, rfl, rfl, ?_⟩
  simp [togglePlay, hf]

/-- C8 witness: restarting a concrete finished FollowDot session. -/
theorem restart_finished_session_witness :
    phase finishedSample = Phase.Finished ∧
      (restartSession finishedSample).timeLeft = 60 := by
  have h := restart_finished_session finishedSample rfl
  exact ⟨rfl, h.2.2.2.2.2.1⟩

/-- C7: whenever the detector reports no face found, the adapter returns
the previous frame with confidence set to 0.3 and blinkDetected forced to
false, every other field unchanged. -/
theorem noFace_degrades_previous_frame (prev : FaceData) :
    (processFrame prev DetectInput.noFace).confidence = 0.3 ∧
    (processFrame prev DetectInput.noFace).blinkDetected = false ∧
    (processFrame prev DetectInput.noFace).yaw = prev.yaw ∧
    (processFrame prev DetectInput.noFace).pitch = prev.pitch ∧
    (processFrame prev DetectInput.noFace).roll = prev.roll ∧
    (processFrame prev DetectInput.noFace).eyeOpennessLeft = prev.eyeOpennessLeft ∧
    (processFrame prev DetectInput.noFace).eyeOpennessRight = prev.eyeOpennessRight ∧
    (processFrame prev DetectInput.noFace).mouthSymmetry = prev.mouthSymmetry ∧
    (processFrame prev DetectInput.noFace).gazeX = prev.gazeX ∧
    (processFrame prev DetectInput.noFace).gazeY = prev.gazeY ∧
    (processFrame prev DetectInput.noFace).leftEye = prev.leftEye ∧
    (processFrame prev DetectInput.noFace).rightEye = prev.rightEye :=
  ⟨rfl, rfl, rfl, rfl, rfl, rfl, rfl, rfl, rfl, rfl, rfl, rfl⟩

/-- C10: every frame produced by the detector path with a face found has
roll exactly 0 — head roll is never estimated on this path. -/
theorem detector_roll_always_zero (prev : FaceData) (lm : ℕ → Point) (bl br : ℝ) :
    (processFrame prev (DetectInput.face lm bl br)).roll = 0 := rfl

/-- C5 counterexample: on the very first detector frame the previous data
is `DEFAULT_FACE_DATA` (zero pose), not absent, so a raw yaw of 10 degrees
is smoothed to 5 rather than passing through. -/
theorem first_frame_pose_smoothed_counterexample :
    rawYawOf lm0 = 10 ∧
    (processFrame DEFAULT_FACE_DATA (DetectInput.face lm0 0 0)).yaw = 5 ∧
    (processFrame DEFAULT_FACE_DATA (DetectInput.face lm0 0 0)).yaw ≠ rawYawOf lm0 := by
  have hraw : rawYawOf lm0 = 10 := by
    simp only [rawYawOf, lm0]
    norm_num
  have hyaw : (processFrame DEFAULT_FACE_DATA (DetectInput.face lm0 0 0)).yaw = 5 := by
    show lerp DEFAULT_FACE_DATA.yaw (rawYawOf lm0) POSE_SMOOTHING = 5
    rw [hraw]
    simp only [lerp, DEFAULT_FACE_DATA, POSE_SMOOTHING]
    norm_num
  exact ⟨hraw, hyaw, by rw [hyaw, hraw]; norm_num⟩

/-- C5 amended: on the very first detector frame, the eye-landmark points
pass through unsmoothed (no previous landmark set exists), but the pose
and gaze fields are smoothed against the default previous frame, whose
pose is all zero, so their first smoothed value is half the raw value. -/
theorem first_frame_smoothing (lm : ℕ → Point) (bl br : ℝ) :
    (processFrame DEFAULT_FACE_DATA (DetectInput.face lm bl br)).leftEye =
      some (rawLeftEyeOf lm) ∧
    (processFrame DEFAULT_FACE_DATA (DetectInput.face lm bl br)).rightEye =
      some (rawRightEyeOf lm) ∧
    (processFrame DEFAULT_FACE_DATA (DetectInput.face lm bl br)).yaw =
      rawYawOf lm * 0.5 ∧
    (processFrame DEFAULT_FACE_DATA (DetectInput.face lm bl br)).pitch =
      rawPitchOf lm * 0.5 ∧
    (processFrame DEFAULT_FACE_DATA (DetectInput.face lm bl br)).gazeX =
      ((lm 1).x - 0.5) * 2 * 0.5 ∧
    (processFrame DEFAULT_FACE_DATA (DetectInput.face lm bl br)).gazeY =
      ((lm 1).y - 0.5) * 2 * 0.5 := by
  refine ⟨rfl, rfl, ?_, ?_, ?_, ?_⟩ <;>
    simp [processFrame, lerp, DEFAULT_FACE_DATA, POSE_SMOOTHING]

/-- Closed form of the iterated smoothing step against a constant raw
input: the error decays geometrically with ratio one half. -/
theorem smoothIter_closed (raw prev : ℝ) (n : ℕ) :
    smoothIter raw prev n = raw + (prev - raw) * (1/2) ^ n := by
  induction n with
  | zero => simp [smoothIter]
  | succ n ih =>
    simp only [smoothIter, lerp, POSE_SMOOTHING, ih]
    ring

/-- C6 counterexample: starting from previous value 0 with constant raw
input 2 (initial gap 2), ten smoothing ticks leave an error of 1/512,
which exceeds 0.001. -/
theorem smoothing_convergence_counterexample :
    ¬ |smoothIter 2 0 10 - 2| ≤ 0.001 := by
  have h : smoothIter 2 0 10 - 2 = -(1/512) := by
    rw [smoothIter_closed]
    norm_num
  rw [h, abs_neg, abs_of_nonneg (by norm_num)]
  norm_num

/-- C6 amended: iterating the smoothing step with factor 0.5 against a
constant raw input brings the output within 0.001 of the raw value after
at most 10 ticks, provided the initial gap `|raw - prev|` is at most
1.024 (the error after 10 ticks is exactly `|raw - prev| / 1024`). -/
theorem smoothing_convergence (raw prev : ℝ) (h : |raw - prev| ≤ 1.024) :
    |smoothIter raw prev 10 - raw| ≤ 0.001 := by
  rw [smoothIter_closed]
  have he : raw + (prev - raw) * (1/2) ^ 10 - raw = (prev - raw) * (1/2) ^ 10 := by
    ring
  rw [he, abs_mul, abs_of_nonneg (by positivity : (0:ℝ) ≤ (1/2) ^ 10)]
  rw [abs_sub_comm] at h
  nlinarith [abs_nonneg (prev - raw)]

/-- C6 witness: the amended convergence bound at previous value 0 and
constant raw input 1. -/
theorem smoothing_convergence_witness :
    |(1:ℝ) - 0| ≤ 1.024 ∧ |smoothIter 1 0 10 - 1| ≤ 0.001 :=
  ⟨by norm_num, smoothing_convergence 1 0 (by norm_num)⟩

/-- The simulated eyelid openness always lies in the unit interval: 0.02
while blinking, otherwise at least the 0.1 floor and at most
`0.94 + tremor ≤ 0.945`. -/
theorem simOpenness_bounds (p : DemoProfile) (t : ℝ) (rnd : SimRand) :
    0 ≤ simOpenness p t rnd ∧ simOpenness p t rnd ≤ 1 := by
  unfold simOpenness
  split
  · constructor <;> norm_num
  · constructor
    · exact le_trans (by norm_num) (le_max_left 0.1 _)
    · apply max_le (by norm_num)
      have hs : Real.sin (t / 50) ≤ 1 := Real.sin_le_one _
      have h1 : (0:ℝ) ≤ max 0 (simGazeY p t rnd.jitterY * 0.2) := le_max_left 0 _
      have h2 : (0:ℝ) ≤
          max 0 (simPitch (profileConfig p).headStabilityMult t * 0.01) :=
        le_max_left 0 _
      linarith

/-- The profile asymmetry multiplier lies in `[0, 0.2]`. -/
theorem asymmetry_range (p : DemoProfile) :
    0 ≤ (profileConfig p).asymmetry ∧ (profileConfig p).asymmetry ≤ 0.2 := by
  cases p <;> norm_num [profileConfig]

/-- C4: every frame of either source keeps confidence, both eye-openness
fields and mouth symmetry in `[0,1]` — for the synthetic generator at
every time, profile and random draw outright, and for the detector adapter
as a preserved invariant (given in-range previous frame and blendshape
scores), starting from the in-range default frame — and every 100ms
HeadStability scoring tick keeps the head stability score in `[0,100]`,
clamping each decrement at 0 and each increment at 100. -/
theorem frame_ranges_invariant :
    (∀ (p : DemoProfile) (t : ℝ) (rnd : SimRand),
      FrameRangesOK (simulateData p t rnd)) ∧
    FrameRangesOK DEFAULT_FACE_DATA ∧
    (∀ (prev : FaceData) (inp : DetectInput), FrameRangesOK prev →
      BlendshapesOK inp → FrameRangesOK (processFrame prev inp)) ∧
    (∀ yaw pitch prev : ℝ, 0 ≤ prev → prev ≤ 100 →
      0 ≤ headStabilityStep yaw pitch prev ∧
        headStabilityStep yaw pitch prev ≤ 100) := by
  refine ⟨?_, ?_, ?_, ?_⟩
  · intro p t rnd
    have hop := simOpenness_bounds p t rnd
    have ha := asymmetry_range p
    refine ⟨?_, ?_, ?_, ?_, ?_, ?_, ?_, ?_⟩
    · show (0:ℝ) ≤ 0.98
      norm_num
    · show (0.98:ℝ) ≤ 1
      norm_num
    · exact hop.1
    · exact hop.2
    · show 0 ≤ simOpenness p t rnd * (1.0 - (profileConfig p).asymmetry)
      have : (0:ℝ) ≤ 1.0 - (profileConfig p).asymmetry := by linarith [ha.2]
      exact mul_nonneg hop.1 this
    · show simOpenness p t rnd * (1.0 - (profileConfig p).asymmetry) ≤ 1
      nlinarith [hop.1, hop.2, ha.1, ha.2]
    · show (0:ℝ) ≤ 0.95 - (profileConfig p).asymmetry
      linarith [ha.2]
    · show (0.95:ℝ) - (profileConfig p).asymmetry ≤ 1
      linarith [ha.1]
  · refine ⟨?_, ?_, ?_, ?_, ?_, ?_, ?_, ?_⟩ <;> norm_num [DEFAULT_FACE_DATA]
  · intro prev inp hprev hbl
    obtain ⟨h1, h2, h3, h4, h5, h6, h7, h8⟩ := hprev
    cases inp with
    | notReady =>
      exact ⟨le_refl 0, show (0:ℝ) ≤ 1 by norm_num, h3, h4, h5, h6, h7, h8⟩
    | duplicate => exact ⟨h1, h2, h3, h4, h5, h6, h7, h8⟩
    | inferError => exact ⟨h1, h2, h3, h4, h5, h6, h7, h8⟩
    | noFace =>
      exact ⟨show (0:ℝ) ≤ 0.3 by norm_num, show (0.3:ℝ) ≤ 1 by norm_num,
        h3, h4, h5, h6, h7, h8⟩
    | face lm bl br =>
      obtain ⟨hb1, hb2, hb3, hb4⟩ := hbl
      refine ⟨?_, ?_, ?_, ?_, ?_, ?_, ?_, ?_⟩
      · show (0:ℝ) ≤ 0.99
        norm_num
      · show (0.99:ℝ) ≤ 1
        norm_num
      · show (0:ℝ) ≤ 1.0 - bl
        linarith
      · show (1.0:ℝ) - bl ≤ 1
        linarith
      · show (0:ℝ) ≤ 1.0 - br
        linarith
      · show (1.0:ℝ) - br ≤ 1
        linarith
      · show (0:ℝ) ≤ 0.95
        norm_num
      · show (0.95:ℝ) ≤ 1
        norm_num
  · intro yaw pitch prev h0 h100
    unfold headStabilityStep
    split
    · exact ⟨le_max_left 0 _, max_le (by norm_num) (by linarith)⟩
    · exact ⟨le_min (by norm_num) (by linarith), min_le_left 100 _⟩

/-- C4 witness: the invariant instantiated at the default frame, a no-face
detector tick from it, and a head-stability tick at deviation 10 degrees
from score 100. -/
theorem frame_ranges_invariant_witness :
    FrameRangesOK DEFAULT_FACE_DATA ∧
    FrameRangesOK (processFrame DEFAULT_FACE_DATA DetectInput.noFace) ∧
    0 ≤ headStabilityStep 10 0 100 ∧ headStabilityStep 10 0 100 ≤ 100 := by
  have h := frame_ranges_invariant
  refine ⟨h.2.1, h.2.2.1 _ _ h.2.1 trivial, ?_, ?_⟩
  · exact (h.2.2.2 10 0 100 (by norm_num) (by norm_num)).1
  · exact (h.2.2.2 10 0 100 (by norm_num) (by norm_num)).2

/-- The JavaScript float remainder is nonnegative for a nonnegative
dividend and positive divisor. -/
theorem jsMod_nonneg (a b : ℝ) (ha : 0 ≤ a) (hb : 0 < b) : 0 ≤ jsMod a b := by
  unfold jsMod jsTrunc
  have hab : 0 ≤ a / b := div_nonneg ha hb.le
  rw [if_pos hab]
  have hfl : (⌊a / b⌋ : ℝ) ≤ a / b := Int.floor_le _
  have h2 : b * (⌊a / b⌋ : ℝ) ≤ b * (a / b) :=
    mul_le_mul_of_nonneg_left hfl hb.le
  have h3 : b * (a / b) = a := by field_simp
  linarith

/-- The saccade progress lies in `[0, 1]` for nonnegative elapsed time. -/
theorem simProgress_mem (p : DemoProfile) (t : ℝ) (ht : 0 ≤ t) :
    0 ≤ simProgress p t ∧ simProgress p t ≤ 1 := by
  unfold simProgress
  refine ⟨le_min (by norm_num) ?_, min_le_left _ _⟩
  apply div_nonneg _ (by norm_num)
  apply jsMod_nonneg _ _ ht
  unfold saccadeIntervalOf
  split <;> norm_num

/-- The cubic ease-out stays in `[0, 1]`. -/
theorem simEase_mem (p : DemoProfile) (t : ℝ) (ht : 0 ≤ t) :
    0 ≤ simEase p t ∧ simEase p t ≤ 1 := by
  obtain ⟨h0, h1⟩ := simProgress_mem p t ht
  unfold simEase
  constructor
  · nlinarith [sq_nonneg (1 - simProgress p t)]
  · have : 0 ≤ (1 - simProgress p t) ^ 3 := pow_nonneg (by linarith) 3
    linarith

/-- Every saccade target abscissa lies within half a unit of centre. -/
theorem simTargetX_abs (s : ℤ) : |simTargetX s| ≤ 0.5 := by
  unfold simTargetX
  rw [abs_mul]
  have h := Real.abs_sin_le_one ((s : ℝ) * 123.45)
  rw [show |(0.5 : ℝ)| = 0.5 by norm_num]
  nlinarith [abs_nonneg (Real.sin ((s : ℝ) * 123.45))]

/-- Every saccade target ordinate lies within 0.3 of centre. -/
theorem simTargetY_abs (s : ℤ) : |simTargetY s| ≤ 0.3 := by
  unfold simTargetY
  rw [abs_mul]
  have h := Real.abs_cos_le_one ((s : ℝ) * 678.90)
  rw [show |(0.3 : ℝ)| = 0.3 by norm_num]
  nlinarith [abs_nonneg (Real.cos ((s : ℝ) * 678.90))]

/-- An eased interpolation between two values bounded by `c` in absolute
value is itself bounded by `c`. -/
theorem convex_abs_le {a b e c : ℝ} (ha : |a| ≤ c) (hb : |b| ≤ c)
    (he0 : 0 ≤ e) (he1 : e ≤ 1) : |a + (b - a) * e| ≤ c := by
  rw [abs_le] at *
  constructor <;> nlinarith

/-- The simulated head yaw is bounded by 9.5 times the profile stability
multiplier. -/
theorem simYaw_abs (m t : ℝ) (hm : 0 ≤ m) : |simYaw m t| ≤ 9.5 * m := by
  unfold simYaw
  rw [abs_le]
  constructor <;>
    nlinarith [Real.neg_one_le_sin (t / 4000), Real.sin_le_one (t / 4000),
      Real.neg_one_le_sin (t / 900), Real.sin_le_one (t / 900)]

/-- The simulated head pitch is bounded by 7 times the profile stability
multiplier. -/
theorem simPitch_abs (m t : ℝ) (hm : 0 ≤ m) : |simPitch m t| ≤ 7 * m := by
  unfold simPitch
  rw [abs_le]
  constructor <;>
    nlinarith [Real.neg_one_le_cos (t / 5000), Real.cos_le_one (t / 5000),
      Real.neg_one_le_sin (t / 1200), Real.sin_le_one (t / 1200)]

/-- The scan abscissa is bounded by 0.5 plus half the profile jitter. -/
theorem simScanX_abs (p : DemoProfile) (t jx : ℝ) (ht : 0 ≤ t)
    (hj0 : 0 ≤ jx) (hj1 : jx < 1) (hg : 0 ≤ (profileConfig p).gazeJitter) :
    |simScanX p t jx| ≤ 0.5 + 0.5 * (profileConfig p).gazeJitter := by
  obtain ⟨he0, he1⟩ := simEase_mem p t ht
  have hs0 : |simTargetX (simSeed p t - 1) +
      (simTargetX (simSeed p t) - simTargetX (simSeed p t - 1)) * simEase p t| ≤ 0.5 :=
    convex_abs_le (simTargetX_abs _) (simTargetX_abs _) he0 he1
  unfold simScanX
  split
  · have hjit : |(jx - 0.5) * (profileConfig p).gazeJitter| ≤
        0.5 * (profileConfig p).gazeJitter := by
      rw [abs_mul, abs_of_nonneg hg]
      have : |jx - 0.5| ≤ 0.5 := by
        rw [abs_le]
        constructor <;> linarith
      exact mul_le_mul_of_nonneg_right this hg
    calc |_ + (jx - 0.5) * (profileConfig p).gazeJitter| ≤
        _ + |(jx - 0.5) * (profileConfig p).gazeJitter| := abs_add _ _
      _ ≤ 0.5 + 0.5 * (profileConfig p).gazeJitter := add_le_add hs0 hjit
  · calc |simTargetX (simSeed p t - 1) +
        (simTargetX (simSeed p t) - simTargetX (simSeed p t - 1)) * simEase p t| ≤
          0.5 := hs0
      _ ≤ 0.5 + 0.5 * (profileConfig p).gazeJitter := by linarith

/-- The scan ordinate is bounded by 0.3 plus half the profile jitter. -/
theorem simScanY_abs (p : DemoProfile) (t jy : ℝ) (ht : 0 ≤ t)
    (hj0 : 0 ≤ jy) (hj1 : jy < 1) (hg : 0 ≤ (profileConfig p).gazeJitter) :
    |simScanY p t jy| ≤ 0.3 + 0.5 * (profileConfig p).gazeJitter := by
  obtain ⟨he0, he1⟩ := simEase_mem p t ht
  have hs0 : |simTargetY (simSeed p t - 1) +
      (simTargetY (simSeed p t) - simTargetY (simSeed p t - 1)) * simEase p t| ≤ 0.3 :=
    convex_abs_le (simTargetY_abs _) (simTargetY_abs _) he0 he1
  unfold simScanY
  split
  · have hjit : |(jy - 0.5) * (profileConfig p).gazeJitter| ≤
        0.5 * (profileConfig p).gazeJitter := by
      rw [abs_mul, abs_of_nonneg hg]
      have : |jy - 0.5| ≤ 0.5 := by
        rw [abs_le]
        constructor <;> linarith
      exact mul_le_mul_of_nonneg_right this hg
    calc |_ + (jy - 0.5) * (profileConfig p).gazeJitter| ≤
        _ + |(jy - 0.5) * (profileConfig p).gazeJitter| := abs_add _ _
      _ ≤ 0.3 + 0.5 * (profileConfig p).gazeJitter := add_le_add hs0 hjit
  · calc |simTargetY (simSeed p t - 1) +
        (simTargetY (simSeed p t) - simTargetY (simSeed p t - 1)) * simEase p t| ≤
          0.3 := hs0
      _ ≤ 0.3 + 0.5 * (profileConfig p).gazeJitter := by linarith

/-- Combining a bounded scan value with the vestibulo-ocular compensation
term keeps gaze within the unit interval when the budgets add to at most
one. -/
theorem gaze_combine {s y c1 c2 : ℝ} (hs : |s| ≤ c1) (hy : |y| ≤ c2)
    (hc : c1 + c2 / 35 ≤ 1) : |s + -(y / 35)| ≤ 1 := by
  rw [abs_le] at *
  constructor <;> linarith

/-- Half-weight exponential interpolation of two values in `[-1, 1]` stays
in `[-1, 1]`. -/
theorem lerp_half_abs {a b : ℝ} (ha : |a| ≤ 1) (hb : |b| ≤ 1) :
    |lerp a b POSE_SMOOTHING| ≤ 1 := by
  unfold lerp POSE_SMOOTHING
  rw [abs_le] at *
  constructor <;> nlinarith

/-- C3 amended: gazeX and gazeY lie in `[-1, 1]` for every synthetic frame
of the Healthy and High profiles (at every nonnegative elapsed time and
every random draw in `[0,1)`), for the default frame, and for every
detector-adapter frame as a preserved invariant given a normalized nose
landmark; the Low profile can leave the interval (see the
counterexample). -/
theorem gaze_in_range :
    (∀ (p : DemoProfile) (t : ℝ) (rnd : SimRand),
      (p = DemoProfile.HEALTHY ∨ p = DemoProfile.HIGH) → 0 ≤ t →
      0 ≤ rnd.jitterX → rnd.jitterX < 1 → 0 ≤ rnd.jitterY → rnd.jitterY < 1 →
      |(simulateData p t rnd).gazeX| ≤ 1 ∧ |(simulateData p t rnd).gazeY| ≤ 1) ∧
    (|DEFAULT_FACE_DATA.gazeX| ≤ 1 ∧ |DEFAULT_FACE_DATA.gazeY| ≤ 1) ∧
    (∀ (prev : FaceData) (inp : DetectInput),
      |prev.gazeX| ≤ 1 → |prev.gazeY| ≤ 1 → NoseOK inp →
      |(processFrame prev inp).gazeX| ≤ 1 ∧ |(processFrame prev inp).gazeY| ≤ 1) := by
  refine ⟨?_, ?_, ?_⟩
  · intro p t rnd hp ht hx0 hx1 hy0 hy1
    have hgX : (simulateData p t rnd).gazeX = simGazeX p t rnd.jitterX := rfl
    have hgY : (simulateData p t rnd).gazeY = simGazeY p t rnd.jitterY := rfl
    rw [hgX, hgY]
    unfold simGazeX simGazeY
    rcases hp with rfl | rfl
    · exact ⟨gaze_combine
          (simScanX_abs _ t rnd.jitterX ht hx0 hx1 (by norm_num [profileConfig]))
          (simYaw_abs _ t (by norm_num [profileConfig]))
          (by norm_num [profileConfig]),
        gaze_combine
          (simScanY_abs _ t rnd.jitterY ht hy0 hy1 (by norm_num [profileConfig]))
          (simPitch_abs _ t (by norm_num [profileConfig]))
          (by norm_num [profileConfig])⟩
    · exact ⟨gaze_combine
          (simScanX_abs _ t rnd.jitterX ht hx0 hx1 (by norm_num [profileConfig]))
          (simYaw_abs _ t (by norm_num [profileConfig]))
          (by norm_num [profileConfig]),
        gaze_combine
          (simScanY_abs _ t rnd.jitterY ht hy0 hy1 (by norm_num [profileConfig]))
          (simPitch_abs _ t (by norm_num [profileConfig]))
          (by norm_num [profileConfig])⟩
  · constructor <;> simp [DEFAULT_FACE_DATA]
  · intro prev inp hgx hgy hnose
    cases inp with
    | notReady => exact ⟨hgx, hgy⟩
    | duplicate => exact ⟨hgx, hgy⟩
    | inferError => exact ⟨hgx, hgy⟩
    | noFace => exact ⟨hgx, hgy⟩
    | face lm bl br =>
      obtain ⟨hn1, hn2, hn3, hn4⟩ := hnose
      constructor
      · show |lerp prev.gazeX (((lm 1).x - 0.5) * 2) POSE_SMOOTHING| ≤ 1
        apply lerp_half_abs hgx
        rw [abs_le]
        constructor <;> linarith
      · show |lerp prev.gazeY (((lm 1).y - 0.5) * 2) POSE_SMOOTHING| ≤ 1
        apply lerp_half_abs hgy
        rw [abs_le]
        constructor <;> linarith

/-- C3 witness: the amended gaze bound at the Healthy profile, time 0 and
zero random draws, and at a no-face detector tick from the default frame. -/
theorem gaze_in_range_witness :
    ((0:ℝ) ≤ 0 ∧ |(simulateData DemoProfile.HEALTHY 0 ⟨0, 0, 0⟩).gazeX| ≤ 1) ∧
    |(processFrame DEFAULT_FACE_DATA DetectInput.noFace).gazeX| ≤ 1 := by
  have h := gaze_in_range
  refine ⟨⟨le_refl 0, ?_⟩, ?_⟩
  · exact (h.1 DemoProfile.HEALTHY 0 ⟨0, 0, 0⟩ (Or.inl rfl) le_rfl le_rfl
      (by norm_num) le_rfl (by norm_num)).1
  · exact (h.2.2 DEFAULT_FACE_DATA DetectInput.noFace h.2.1.1 h.2.1.2 trivial).1

/-- C3 counterexample: at elapsed time `2000π` ms (about 6.28 s) the Low
profile's vestibulo-ocular term `-(yaw/35)` exceeds one in magnitude
(yaw is above 35 degrees there) while the saccade target is nonpositive
and the jitter draw 0 contributes `-0.075`, so the synthetic frame's gazeX
falls strictly below `-1`. -/
theorem low_profile_gaze_exceeds_range :
    (simulateData DemoProfile.LOW (2000 * Real.pi) ⟨0, 0, 0⟩).gazeX < -1 := by
  have hpi3 := Real.pi_gt_three
  have hpi_lo := Real.pi_gt_d2
  have hpi_hi := Real.pi_lt_d2
  have hsacc : saccadeIntervalOf DemoProfile.LOW = 1800 := rfl
  have hfl : (⌊(2000 * Real.pi) / 1800⌋ : ℤ) = 3 := by
    rw [Int.floor_eq_iff]
    refine ⟨?_, ?_⟩ <;> push_cast <;> nlinarith
  have hseed : simSeed DemoProfile.LOW (2000 * Real.pi) = 3 := by
    unfold simSeed
    rw [hsacc]
    exact hfl
  have hmod : jsMod (2000 * Real.pi) 1800 = 2000 * Real.pi - 5400 := by
    unfold jsMod jsTrunc
    rw [if_pos (by positivity : (0:ℝ) ≤ 2000 * Real.pi / 1800), hfl]
    push_cast
    ring
  have hprog : simProgress DemoProfile.LOW (2000 * Real.pi) = 1 := by
    unfold simProgress
    rw [hsacc, hmod, min_eq_left]
    linarith
  have hease : simEase DemoProfile.LOW (2000 * Real.pi) = 1 := by
    unfold simEase
    rw [hprog]
    norm_num
  have htarget : simTargetX 3 ≤ 0 := by
    unfold simTargetX
    have harg : ((3:ℤ) : ℝ) * 123.45 = 370.35 := by push_cast; norm_num
    rw [harg]
    have key : Real.sin 370.35 = Real.sin (370.35 - 118 * Real.pi) := by
      have h := Real.sin_add_int_mul_two_pi (370.35 - 118 * Real.pi) 59
      rw [show (370.35 - 118 * Real.pi) + (59:ℤ) * (2 * Real.pi) = 370.35 by
        push_cast; ring] at h
      exact h
    have hneg : Real.sin (370.35 - 118 * Real.pi) < 0 :=
      Real.sin_neg_of_neg_of_neg_pi_lt (by nlinarith) (by nlinarith)
    rw [key]
    nlinarith
  have hg : (profileConfig DemoProfile.LOW).gazeJitter = 0.15 := rfl
  have hscan : simScanX DemoProfile.LOW (2000 * Real.pi) 0 ≤ -0.075 := by
    unfold simScanX
    have hcollapse : simTargetX (simSeed DemoProfile.LOW (2000 * Real.pi) - 1) +
        (simTargetX (simSeed DemoProfile.LOW (2000 * Real.pi)) -
          simTargetX (simSeed DemoProfile.LOW (2000 * Real.pi) - 1)) *
          simEase DemoProfile.LOW (2000 * Real.pi) =
        simTargetX (simSeed DemoProfile.LOW (2000 * Real.pi)) := by
      rw [hease]
      ring
    split
    · rw [hcollapse, hseed, hg]
      have : ((0:ℝ) - 0.5) * 0.15 = -0.075 := by norm_num
      linarith [htarget]
    · next hcond =>
      exact absurd (show (profileConfig DemoProfile.LOW).gazeJitter > 0 by
        rw [hg]; norm_num) hcond
  have hm4 : (profileConfig DemoProfile.LOW).headStabilityMult = 4.0 := rfl
  have hyaw : 35 <
      simYaw (profileConfig DemoProfile.LOW).headStabilityMult (2000 * Real.pi) := by
    rw [hm4]
    unfold simYaw
    have e1 : (2000 * Real.pi) / 4000 = Real.pi / 2 := by ring
    have e2 : (2000 * Real.pi) / 900 = 2 * Real.pi / 9 + 2 * Real.pi := by ring
    rw [e1, e2, Real.sin_pi_div_two, Real.sin_add_two_pi]
    have hs : (1/2 : ℝ) < Real.sin (2 * Real.pi / 9) := by
      have h1 : -(Real.pi / 2) ≤ Real.pi / 6 := by linarith [Real.pi_pos]
      have h2 : 2 * Real.pi / 9 ≤ Real.pi / 2 := by linarith [Real.pi_pos]
      have h3 : Real.pi / 6 < 2 * Real.pi / 9 := by linarith [Real.pi_pos]
      have h4 := Real.sin_lt_sin_of_lt_of_le_pi_div_two h1 h2 h3
      rwa [Real.sin_pi_div_six] at h4
    nlinarith
  have hgX : (simulateData DemoProfile.LOW (2000 * Real.pi) ⟨0, 0, 0⟩).gazeX =
      simGazeX DemoProfile.LOW (2000 * Real.pi) 0 := rfl
  rw [hgX]
  unfold simGazeX
  linarith

end NeuroVision
